import Mathlib

/-!
Shallow embedding of the credential and token lifecycle subsystem of the
node-api-users repository (auth controllers, AuthRepositoryImpl,
AuthApiDataSourceImpl, checkRoleMiddleware, handleError), together with
proofs settling the frozen claims about it.

Conventions:
- The Firestore users collection is a `List UserRecord`; `where("email","==",e).limit(1)`
  is `List.find?`; `doc.ref.update` on the found doc updates the first match.
- JS falsy checks on the stored password (`!snapshot.password`) are modelled by
  `truthy : Option String → Bool` (absent or empty string is falsy).
- A JWT is a payload together with the secret it was signed with; `jwt.verify`
  succeeds iff the verifying secret equals the signing secret and the token is
  not expired (jsonwebtoken throws TokenExpiredError when `exp <= now`).
- bcrypt is abstracted: operations take the hash function `bhash` and the
  comparison `bcompare` as parameters, so theorems quantify over them.
-/

/-- Role type from `shared/interfaces/role`: `export type Role = "admin" | "guest"`. -/
inductive Role where
  | admin
  | guest
deriving DecidableEq

/-- A persisted user document in the users collection. `password` is the bcrypt
hash (`none` when the field is absent); `role` is optional on the document. -/
structure UserRecord where
  id : String
  firstName : String
  lastName : String
  email : String
  password : Option String
  emailVerified : Bool
  role : Option Role
deriving DecidableEq

/-- JS truthiness of an optional string field (`undefined` and `""` are falsy). -/
def truthy : Option String → Bool
  | none => false
  | some s => s ≠ ""

/-- JWT payload as used by this codebase: the controllers sign at most an
`email`; the middleware and post handlers read `id` and `role`, which are
therefore optional; `iat` always present, `exp` present iff `expiresIn` given. -/
structure JwtPayload where
  id : Option String
  role : Option String
  email : Option String
  iat : Nat
  exp : Option Nat
deriving DecidableEq

/-- A signed token: the payload plus the secret it was signed with. -/
structure Jwt where
  payload : JwtPayload
  secret : String
deriving DecidableEq

/-- Failure modes of `jwt.verify` relevant here. -/
inductive JwtError where
  | invalidSignature
  | expired
deriving DecidableEq

/-- jsonwebtoken error messages as surfaced on the thrown `Error` objects. -/
def jwtErrorMessage : JwtError → String
  | .invalidSignature => "invalid signature"
  | .expired => "jwt expired"

/-- Model of `jwt.verify(token, secret)` at clock time `now` (seconds):
fails with a signature error when the secret differs from the signing secret,
with an expiry error when `exp <= now`, and otherwise returns the payload. -/
def jwtVerify (tok : Jwt) (secret : String) (now : Nat) : Except JwtError JwtPayload :=
  if tok.secret ≠ secret then .error .invalidSignature
  else
    match tok.payload.exp with
    | some e => if e ≤ now then .error .expired else .ok tok.payload
    | none => .ok tok.payload

/-- Token signed by `loginUser` (controllers/login/index.ts):
`jwt.sign(..., JWT_SECRET, expiresIn 1 day)`.
The payload carries only the email; no `id`, no `role`; `1d` = 86400 s. -/
def loginSignToken (email secret : String) (now : Nat) : Jwt :=
  { payload := { id := none, role := none, email := some email,
                 iat := now, exp := some (now + 86400) },
    secret := secret }

/-- Token signed by `registerUser` (controllers/register, part_038):
`jwt.sign({ email: userParsed.email }, JWT_VERIFY_SECRET)` — no expiry. -/
def registerSignToken (email verifySecret : String) (now : Nat) : Jwt :=
  { payload := { id := none, role := none, email := some email,
                 iat := now, exp := none },
    secret := verifySecret }

/-- Token signed by `forgotPasswordUser` (controllers/forgot_password):
`jwt.sign(..., JWT_RESET_SECRET, expiresIn 15 minutes)`; 15 m = 900 s. -/
def forgotSignToken (email resetSecret : String) (now : Nat) : Jwt :=
  { payload := { id := none, role := none, email := some email,
                 iat := now, exp := some (now + 900) },
    secret := resetSecret }

/-- An HTTP response as produced by the auth controllers and middleware:
a status code, an optional message body field, and an optional token body field
(only `loginUser` ever sets the token field). -/
structure HttpResponse where
  status : Nat
  message : Option String
  token : Option Jwt
deriving DecidableEq

/-- Values reaching the `catch` blocks: Zod validation failures and thrown
`Error` objects carrying a message. -/
inductive Thrown where
  | zodError (msg : String)
  | jsError (msg : String)
deriving DecidableEq

/-- Model of JS `String.prototype.toLowerCase` on the ASCII messages used here. -/
def toLowerCase (s : String) : String := ⟨s.data.map Char.toLower⟩

/-- Character-list substring search: `pat` occurs somewhere in the list. -/
def containsSub (pat : List Char) : List Char → Bool
  | [] => pat.isEmpty
  | c :: rest => pat.isPrefixOf (c :: rest) || containsSub pat rest

/-- JS `String.prototype.includes`: `s` contains `pat` as a substring. -/
def strContains (s pat : String) : Bool := containsSub pat.data s.data

/-- Embedding of `handleError` (auth/infrastructure/errors, part_020):
ZodError responds 400; an `Error` whose lowercased message contains
"does not exist" responds 404; every other `Error` responds 500. -/
def handleError (e : Thrown) : HttpResponse :=
  match e with
  | .zodError m => { status := 400, message := some m, token := none }
  | .jsError m =>
    if strContains (toLowerCase m) "does not exist"
    then { status := 404, message := some m, token := none }
    else { status := 500, message := some m, token := none }

namespace AuthApiDataSourceImpl

/-- `AuthApiDataSourceImpl.login`: query the users collection by email,
limit 1; throw "Email does not exist" when the snapshot is empty. -/
def login (store : List UserRecord) (email : String) : Except String UserRecord :=
  match store.find? (fun u => decide (u.email = email)) with
  | none => .error "Email does not exist"
  | some u => .ok u

/-- `AuthApiDataSourceImpl.searchUserByEmail`: identical query, same error. -/
def searchUserByEmail (store : List UserRecord) (email : Option String) :
    Except String UserRecord :=
  match store.find? (fun u => decide (some u.email = email)) with
  | none => .error "Email does not exist"
  | some u => .ok u

end AuthApiDataSourceImpl

namespace AuthRepositoryImpl

/-- `AuthRepositoryImpl.login` (part_033): fetch the record by email, then
fail "User has not been registered" when the password field is falsy,
"User has not verified the email" when `emailVerified` is false, and
"Invalid password" when `bcrypt.compare` rejects; otherwise succeed. -/
def login (bcompare : String → String → Bool) (store : List UserRecord)
    (email password : String) : Except String Unit :=
  match AuthApiDataSourceImpl.login store email with
  | .error e => .error e
  | .ok u =>
    if truthy u.password = false then .error "User has not been registered"
    else if u.emailVerified = false then .error "User has not verified the email"
    else if bcompare password (u.password.getD "") = false then .error "Invalid password"
    else .ok ()

end AuthRepositoryImpl

/-- An email handed to the Resend transport: recipient, subject, and the token
embedded in the hyperlink of the HTML body. -/
structure EmailMsg where
  toEmail : String
  subject : String
  linkToken : Jwt
deriving DecidableEq

namespace AuthApiDataSourceImpl

/-- `AuthApiDataSourceImpl.sendResetEmail`: builds the reset email with the
token in the link and hands it to the transport without awaiting the send
(fire-and-forget: transport failures never propagate). Never touches the
users collection. -/
def sendResetEmail (email : String) (token : Jwt) : EmailMsg :=
  { toEmail := email, subject := "Reset your password", linkToken := token }

/-- `AuthApiDataSourceImpl.sendVerificationEmail`: same shape for the
verification email sent at registration. -/
def sendVerificationEmail (email : String) (token : Jwt) : EmailMsg :=
  { toEmail := email, subject := "Verify Your Email Address", linkToken := token }

end AuthApiDataSourceImpl

namespace AuthRepositoryImpl

/-- `AuthRepositoryImpl.forgotPassword` (part_033): delegates to
`sendResetEmail`; no store access, no failure path of its own. -/
def forgotPassword (email : String) (token : Jwt) : EmailMsg :=
  AuthApiDataSourceImpl.sendResetEmail email token

end AuthRepositoryImpl

/-- Embedding of the `forgotPasswordUser` controller (already-validated input,
per the schema precondition): sign a 15-minute reset token over the email with
the reset secret, dispatch the reset email through the use case, and respond
200 "Password reset email sent". `store` is the ambient users collection the
request runs against; the handler never reads or writes it. -/
def forgotPasswordUser (store : List UserRecord) (resetSecret : String)
    (now : Nat) (email : String) :
    HttpResponse × List EmailMsg × List UserRecord :=
  let token := forgotSignToken email resetSecret now
  let sent := AuthRepositoryImpl.forgotPassword email token
  ({ status := 200, message := some "Password reset email sent", token := none },
   [sent], store)

/-- C3: for every stored account reached by the login query whose
`emailVerified` field is false and whose password hash is present, login fails
with the "User has not verified the email" error, for every bcrypt comparison
function — in particular even when the supplied password matches the stored
hash — so login never succeeds for an unverified account. -/
theorem claim_C3_no_login_before_verification
    (bcompare : String → String → Bool) (store : List UserRecord)
    (email password : String) (u : UserRecord)
    (hfind : store.find? (fun v => decide (v.email = email)) = some u)
    (hpw : truthy u.password = true)
    (hver : u.emailVerified = false) :
    AuthRepositoryImpl.login bcompare store email password
      = .error "User has not verified the email" := by
  unfold AuthRepositoryImpl.login AuthApiDataSourceImpl.login
  rw [hfind]
  simp [hpw, hver]

/-- C3 witness: a concrete unverified account with a stored hash is refused
with the email-not-verified error even though the comparison succeeds. -/
theorem claim_C3_witness :
    AuthRepositoryImpl.login (fun _ _ => true)
      [{ id := "u1", firstName := "Ana", lastName := "Lopez",
         email := "a@x.com", password := some "hash1",
         emailVerified := false, role := some .guest }]
      "a@x.com" "Pw123456"
      = .error "User has not verified the email" :=
  claim_C3_no_login_before_verification (fun _ _ => true) _ "a@x.com" "Pw123456"
    { id := "u1", firstName := "Ana", lastName := "Lopez",
      email := "a@x.com", password := some "hash1",
      emailVerified := false, role := some .guest }
    (by decide) (by decide) (by decide)

/-- C4: enumeration resistance of forgotPassword — for every email input and
every two ambient stores (one containing a record with that email, one not),
the controller returns the identical success response, with status 200;
the caller cannot distinguish the two runs from the response. -/
theorem claim_C4_enumeration_resistance
    (store1 store2 : List UserRecord) (resetSecret : String) (now : Nat)
    (email : String) :
    (forgotPasswordUser store1 resetSecret now email).1
        = (forgotPasswordUser store2 resetSecret now email).1
      ∧ (forgotPasswordUser store1 resetSecret now email).1.status = 200 := by
  exact ⟨rfl, rfl⟩

/-- C4 witness: concrete run with a store containing the email versus the
empty store — equal responses, status 200. -/
theorem claim_C4_witness :
    (forgotPasswordUser
        [{ id := "u1", firstName := "Ana", lastName := "Lopez",
           email := "a@x.com", password := some "hash1",
           emailVerified := true, role := some .guest }]
        "rsec" 0 "a@x.com").1
      = (forgotPasswordUser [] "rsec" 0 "a@x.com").1
    ∧ (forgotPasswordUser
        [{ id := "u1", firstName := "Ana", lastName := "Lopez",
           email := "a@x.com", password := some "hash1",
           emailVerified := true, role := some .guest }]
        "rsec" 0 "a@x.com").1.status = 200 :=
  claim_C4_enumeration_resistance _ [] "rsec" 0 "a@x.com"

/-- C5 counterexample: the claim says a duplicate-email Conflict from register
yields a 409-class response and an invalid-credentials failure from login a
401-class one; but `handleError` maps the thrown "Email already exists" and
"Invalid password" errors to status 500 — neither 409 nor 401. -/
theorem claim_C5_counterexample :
    (handleError (.jsError "Email already exists")).status = 500
      ∧ (handleError (.jsError "Invalid password")).status = 500
      ∧ (500 : Nat) ≠ 409 ∧ (500 : Nat) ≠ 401 := by
  refine ⟨?_, ?_, by decide, by decide⟩ <;> decide

/-- C5 amended: `handleError` is the single error-to-status mapping of the auth
subsystem; it sends Zod validation failures to 400 and an `Error` to 404 exactly
when its lowercased message contains "does not exist", and to 500 otherwise.
In particular the duplicate-email conflict, invalid credentials, unverified
email, bad token signature and expired token errors all surface as 500, while
the missing-user and missing-email errors surface as 404. -/
theorem claim_C5_amended :
    (handleError (.jsError "Email already exists")).status = 500
      ∧ (handleError (.jsError "Invalid password")).status = 500
      ∧ (handleError (.jsError "User has not verified the email")).status = 500
      ∧ (handleError (.jsError (jwtErrorMessage .invalidSignature))).status = 500
      ∧ (handleError (.jsError (jwtErrorMessage .expired))).status = 500
      ∧ (handleError (.jsError "User does not exist")).status = 404
      ∧ (handleError (.jsError "Email does not exist")).status = 404
      ∧ (handleError (.zodError "Email must be a valid email address")).status = 400 := by
  refine ⟨?_, ?_, ?_, ?_, ?_, ?_, ?_, ?_⟩ <;> decide

/-- Registration input as parsed by `RegisterCreateSchema` and cast to
`AuthRegisterEntity`: the schema has no `role` key, so the optional role of
the entity is what the caller supplies at the domain layer (absent via the HTTP
route); `emailVerified` may be supplied by the client. -/
structure AuthRegisterEntity where
  id : String
  firstName : String
  lastName : String
  email : String
  password : String
  emailVerified : Bool
  role : Option Role
deriving DecidableEq

/-- Modelled from the spec: the current `AuthRegisterModel` source file is
missing from the tree — only an outdated copy without `role` (part_032) and
its caller `AuthRegisterMapper` (which passes `user.role ?? "guest"` as the
seventh constructor argument of the model) are present. The `role` field and its
inclusion in `toJSON` follow the mapper call and the UserRecord of the spec
(§3: role defaults to the least-privileged value). -/
structure AuthRegisterModel where
  id : String
  firstName : String
  lastName : String
  email : String
  password : String
  emailVerified : Bool
  role : Role
deriving DecidableEq

/-- Modelled from the spec: `AuthRegisterModel.toJSON`, the plain object
persisted by `db.collection("users").add(user.toJSON())` — every model field
including `role` (see the doc comment of the model for what is missing from
the tree); the password field holds the bcrypt hash at this point. -/
def AuthRegisterModel.toJSON (m : AuthRegisterModel) : UserRecord :=
  { id := m.id, firstName := m.firstName, lastName := m.lastName,
    email := m.email, password := some m.password,
    emailVerified := m.emailVerified, role := some m.role }

namespace AuthRegisterMapper

/-- `AuthRegisterMapper.toModel`: entity to model, defaulting the role with
`user.role ?? "guest"`. -/
def toModel (user : AuthRegisterEntity) : AuthRegisterModel :=
  { id := user.id, firstName := user.firstName, lastName := user.lastName,
    email := user.email, password := user.password,
    emailVerified := user.emailVerified, role := user.role.getD .guest }

end AuthRegisterMapper

namespace AuthApiDataSourceImpl

/-- `AuthApiDataSourceImpl.register`: throw "Email already exists" when any
stored record has the email; otherwise add `user.toJSON()` as a new document
and return its reference (the persisted record). -/
def register (store : List UserRecord) (m : AuthRegisterModel) :
    Except String UserRecord :=
  if store.any (fun u => decide (u.email = m.email)) then .error "Email already exists"
  else .ok m.toJSON

end AuthApiDataSourceImpl

namespace AuthRepositoryImpl

/-- `AuthRepositoryImpl.register` (part_033, second revision): hash the
password, force `emailVerified := false`, persist the mapped model via the
data source, overwrite the stored `id` with the generated document id
(`authRef.update(...)` with the id field), and dispatch the verification
email carrying the token signed by the controller. -/
def register (bhash : String → String) (store : List UserRecord)
    (user : AuthRegisterEntity) (token : Jwt) (newId : String) :
    Except String (List UserRecord × EmailMsg) :=
  let user1 : AuthRegisterEntity :=
    { user with password := bhash user.password, emailVerified := false }
  match AuthApiDataSourceImpl.register store (AuthRegisterMapper.toModel user1) with
  | .error e => .error e
  | .ok rec0 =>
    .ok (store ++ [{ rec0 with id := newId }],
         AuthApiDataSourceImpl.sendVerificationEmail user1.email token)

end AuthRepositoryImpl

/-- C7: for every registration input with no role specified — even one that
supplies `emailVerified := true` — when the email is not already stored,
register persists exactly one new record, and that record has
`emailVerified = false` and the least-privileged role `guest`. -/
theorem claim_C7_register_defaults
    (bhash : String → String) (store : List UserRecord)
    (user : AuthRegisterEntity) (token : Jwt) (newId : String)
    (hrole : user.role = none)
    (hdup : store.any (fun u => decide (u.email = user.email)) = false) :
    ∃ r : UserRecord, ∃ em : EmailMsg,
      AuthRepositoryImpl.register bhash store user token newId = .ok (store ++ [r], em)
        ∧ r.emailVerified = false ∧ r.role = some Role.guest
        ∧ r.email = user.email ∧ r.password = some (bhash user.password) := by
  refine ⟨{ id := newId, firstName := user.firstName, lastName := user.lastName,
            email := user.email, password := some (bhash user.password),
            emailVerified := false, role := some (user.role.getD .guest) },
          AuthApiDataSourceImpl.sendVerificationEmail user.email token,
          ?_, rfl, ?_, rfl, rfl⟩
  · unfold AuthRepositoryImpl.register AuthApiDataSourceImpl.register
    simp [hdup, AuthRegisterMapper.toModel, AuthRegisterModel.toJSON]
  · simp [hrole]

/-- C7 witness: registering a concrete user who even claims
`emailVerified := true` and no role, into an empty store, persists an
unverified guest record. -/
theorem claim_C7_witness :
    ∃ r : UserRecord, ∃ em : EmailMsg,
      AuthRepositoryImpl.register (fun p => "h" ++ p) []
          { id := "", firstName := "Ana", lastName := "Lopez",
            email := "a@x.com", password := "Pw123456",
            emailVerified := true, role := none }
          (registerSignToken "a@x.com" "vsec" 0) "gen1"
        = .ok ([] ++ [r], em)
        ∧ r.emailVerified = false ∧ r.role = some Role.guest
        ∧ r.email = "a@x.com" ∧ r.password = some ((fun p => "h" ++ p) "Pw123456") :=
  claim_C7_register_defaults (fun p => "h" ++ p) []
    { id := "", firstName := "Ana", lastName := "Lopez",
      email := "a@x.com", password := "Pw123456",
      emailVerified := true, role := none }
    (registerSignToken "a@x.com" "vsec" 0) "gen1" rfl (by decide)

/-- `doc.ref.update(partial)` on the document found by an email query: update
the first record satisfying the query predicate, leaving all others alone. -/
def updateFirst (p : UserRecord → Bool) (f : UserRecord → UserRecord) :
    List UserRecord → List UserRecord
  | [] => []
  | u :: us => if p u then f u :: us else u :: updateFirst p f us

/-- Helper: on a store decomposed around its first match, `find?` returns
that match. -/
theorem find_first_match (p : UserRecord → Bool) (l1 : List UserRecord)
    (u : UserRecord) (l2 : List UserRecord)
    (hpre : ∀ v ∈ l1, p v = false) (hu : p u = true) :
    (l1 ++ u :: l2).find? p = some u := by
  induction l1 with
  | nil => simp [List.find?, hu]
  | cons w ws ih =>
    have hw : p w = false := hpre w (List.mem_cons_self w ws)
    simp only [List.cons_append, List.find?, hw]
    exact ih (fun v hv => hpre v (List.mem_cons_of_mem w hv))

/-- Helper: on a store decomposed around its first match, `updateFirst`
rewrites exactly that record. -/
theorem updateFirst_first_match (p : UserRecord → Bool)
    (f : UserRecord → UserRecord) (l1 : List UserRecord) (u : UserRecord)
    (l2 : List UserRecord)
    (hpre : ∀ v ∈ l1, p v = false) (hu : p u = true) :
    updateFirst p f (l1 ++ u :: l2) = l1 ++ f u :: l2 := by
  induction l1 with
  | nil => simp [updateFirst, hu]
  | cons w ws ih =>
    have hw : p w = false := hpre w (List.mem_cons_self w ws)
    have ih2 := ih (fun v hv => hpre v (List.mem_cons_of_mem w hv))
    simp [updateFirst, hw, ih2]

namespace AuthRepositoryImpl

/-- `AuthRepositoryImpl.resetPassword` (part_033): look the user up by the
email recovered from the reset token (the `!doc.exists` guard cannot fire
after a successful search, which already throws on an empty snapshot), fail
"User has not been registered" when the stored password is falsy, and
otherwise update only the `password` field of that document with the new
bcrypt hash. -/
def resetPassword (bhash : String → String) (store : List UserRecord)
    (email : Option String) (password : String) :
    Except String (List UserRecord) :=
  match AuthApiDataSourceImpl.searchUserByEmail store email with
  | .error e => .error e
  | .ok u =>
    if truthy u.password = false then .error "User has not been registered"
    else .ok (updateFirst (fun v => decide (some v.email = email))
                (fun v => { v with password := some (bhash password) }) store)

end AuthRepositoryImpl

/-- Embedding of the `resetPasswordUser` controller (already-validated input):
verify the reset token with the reset secret, recover the email from the
payload, run the reset use case, and respond 200 with a message and no token
field; any thrown error goes through `handleError`, leaving the store as is. -/
def resetPasswordUser (bhash : String → String) (store : List UserRecord)
    (resetSecret : String) (now : Nat) (tok : Jwt) (password : String) :
    HttpResponse × List UserRecord :=
  match jwtVerify tok resetSecret now with
  | .error e => (handleError (.jsError (jwtErrorMessage e)), store)
  | .ok pl =>
    match AuthRepositoryImpl.resetPassword bhash store pl.email password with
    | .error m => (handleError (.jsError m), store)
    | .ok store1 =>
      ({ status := 200, message := some "Password has been successfully reset",
         token := none }, store1)

/-- C8: frame property of resetPassword — when the reset token verifies and
the store holds a registered record for the recovered email (decomposed as
`l1 ++ u :: l2` with the earlier records not matching), the operation returns
the store with only the `password` field of that record replaced by the hash;
every other record and every other field of `u` is unchanged, and the response
carries no token (no AccessToken is issued). -/
theorem claim_C8_reset_password_frame
    (bhash : String → String) (resetSecret : String) (now : Nat) (tok : Jwt)
    (password : String) (pl : JwtPayload)
    (l1 : List UserRecord) (u : UserRecord) (l2 : List UserRecord)
    (hver : jwtVerify tok resetSecret now = .ok pl)
    (hpre : ∀ v ∈ l1, some v.email ≠ pl.email)
    (hu : some u.email = pl.email)
    (hpw : truthy u.password = true) :
    resetPasswordUser bhash (l1 ++ u :: l2) resetSecret now tok password
      = ({ status := 200, message := some "Password has been successfully reset",
           token := none },
         l1 ++ { u with password := some (bhash password) } :: l2) := by
  have hfind := find_first_match (fun v => decide (some v.email = pl.email)) l1 u l2
    (fun v hv => decide_eq_false (hpre v hv)) (decide_eq_true hu)
  have hupd := updateFirst_first_match (fun v => decide (some v.email = pl.email))
    (fun v => { v with password := some (bhash password) }) l1 u l2
    (fun v hv => decide_eq_false (hpre v hv)) (decide_eq_true hu)
  have h1 : AuthApiDataSourceImpl.searchUserByEmail (l1 ++ u :: l2) pl.email = .ok u := by
    unfold AuthApiDataSourceImpl.searchUserByEmail
    rw [hfind]
  have h2 : AuthRepositoryImpl.resetPassword bhash (l1 ++ u :: l2) pl.email password
      = .ok (l1 ++ { u with password := some (bhash password) } :: l2) := by
    unfold AuthRepositoryImpl.resetPassword
    rw [h1]
    simp [hpw, hupd]
  unfold resetPasswordUser
  rw [hver]
  simp only [h2]

/-- C8 witness: a concrete registered account has exactly its password hash
replaced, and the success response contains no token. -/
theorem claim_C8_witness :
    resetPasswordUser (fun p => "h" ++ p)
        [{ id := "u1", firstName := "Ana", lastName := "Lopez",
           email := "a@x.com", password := some "oldhash",
           emailVerified := true, role := some .guest }]
        "rsec" 100 (forgotSignToken "a@x.com" "rsec" 0) "NewPw123456"
      = ({ status := 200, message := some "Password has been successfully reset",
           token := none },
         [{ id := "u1", firstName := "Ana", lastName := "Lopez",
            email := "a@x.com", password := some ((fun p => "h" ++ p) "NewPw123456"),
            emailVerified := true, role := some .guest }]) :=
  claim_C8_reset_password_frame (fun p => "h" ++ p) "rsec" 100
    (forgotSignToken "a@x.com" "rsec" 0) "NewPw123456"
    (forgotSignToken "a@x.com" "rsec" 0).payload
    [] { id := "u1", firstName := "Ana", lastName := "Lopez",
         email := "a@x.com", password := some "oldhash",
         emailVerified := true, role := some .guest } []
    (by rfl) (by simp) (by decide) (by decide)

namespace AuthRepositoryImpl

/-- `AuthRepositoryImpl.verifyEmail` (part_033): look the user up by email
(the search already throws "Email does not exist" on an empty snapshot, so
the `!doc.exists` guard cannot fire) and set `emailVerified := true` on that
document unconditionally. -/
def verifyEmail (store : List UserRecord) (email : Option String) :
    Except String (List UserRecord) :=
  match AuthApiDataSourceImpl.searchUserByEmail store email with
  | .error e => .error e
  | .ok _ =>
    .ok (updateFirst (fun v => decide (some v.email = email))
          (fun v => { v with emailVerified := true }) store)

end AuthRepositoryImpl

/-- Embedding of the `verifyEmailUser` controller: validate the query, verify
the token — with `JWT_RESET_SECRET`, exactly as the source does — recover the
payload email, run the verify-email use case, and respond 200; any thrown
error goes through `handleError` with the store unchanged. -/
def verifyEmailUser (store : List UserRecord) (resetSecret : String)
    (now : Nat) (tok : Jwt) : HttpResponse × List UserRecord :=
  match jwtVerify tok resetSecret now with
  | .error e => (handleError (.jsError (jwtErrorMessage e)), store)
  | .ok pl =>
    match AuthRepositoryImpl.verifyEmail store pl.email with
    | .error m => (handleError (.jsError m), store)
    | .ok store1 =>
      ({ status := 200, message := some "Email has been successfully verified",
         token := none }, store1)

/-- C9: idempotence of verifyEmail — for every existing account (store
decomposed around the first record with the email), the operation succeeds
whatever the current `emailVerified` value, flips it to true, and running it
a second time succeeds again and returns the very same store. -/
theorem claim_C9_verify_email_idempotent
    (l1 : List UserRecord) (u : UserRecord) (l2 : List UserRecord) (e : String)
    (hpre : ∀ v ∈ l1, v.email ≠ e)
    (hu : u.email = e) :
    AuthRepositoryImpl.verifyEmail (l1 ++ u :: l2) (some e)
        = .ok (l1 ++ { u with emailVerified := true } :: l2)
      ∧ AuthRepositoryImpl.verifyEmail (l1 ++ { u with emailVerified := true } :: l2) (some e)
        = .ok (l1 ++ { u with emailVerified := true } :: l2) := by
  have hpre2 : ∀ v ∈ l1, (decide (some v.email = some e)) = false := by
    intro v hv
    exact decide_eq_false (by simp [hpre v hv])
  have hu2 : (decide (some u.email = some e)) = true := decide_eq_true (by simp [hu])
  constructor
  · have hfind := find_first_match (fun v => decide (some v.email = some e)) l1 u l2 hpre2 hu2
    have hupd := updateFirst_first_match (fun v => decide (some v.email = some e))
      (fun v => { v with emailVerified := true }) l1 u l2 hpre2 hu2
    unfold AuthRepositoryImpl.verifyEmail AuthApiDataSourceImpl.searchUserByEmail
    rw [hfind]
    exact congrArg Except.ok hupd
  · have hfind := find_first_match (fun v => decide (some v.email = some e)) l1
      { u with emailVerified := true } l2 hpre2 hu2
    have hupd := updateFirst_first_match (fun v => decide (some v.email = some e))
      (fun v => { v with emailVerified := true }) l1
      { u with emailVerified := true } l2 hpre2 hu2
    unfold AuthRepositoryImpl.verifyEmail AuthApiDataSourceImpl.searchUserByEmail
    rw [hfind]
    exact congrArg Except.ok hupd

/-- C9 witness: verifying a concrete unverified account succeeds, and a second
verification succeeds and leaves the store exactly as after the first. -/
theorem claim_C9_witness :
    AuthRepositoryImpl.verifyEmail
        [{ id := "u1", firstName := "Ana", lastName := "Lopez",
           email := "a@x.com", password := some "hash1",
           emailVerified := false, role := some .guest }] (some "a@x.com")
      = .ok [{ id := "u1", firstName := "Ana", lastName := "Lopez",
               email := "a@x.com", password := some "hash1",
               emailVerified := true, role := some .guest }]
    ∧ AuthRepositoryImpl.verifyEmail
        [{ id := "u1", firstName := "Ana", lastName := "Lopez",
           email := "a@x.com", password := some "hash1",
           emailVerified := true, role := some .guest }] (some "a@x.com")
      = .ok [{ id := "u1", firstName := "Ana", lastName := "Lopez",
               email := "a@x.com", password := some "hash1",
               emailVerified := true, role := some .guest }] :=
  claim_C9_verify_email_idempotent []
    { id := "u1", firstName := "Ana", lastName := "Lopez",
      email := "a@x.com", password := some "hash1",
      emailVerified := false, role := some .guest } [] "a@x.com"
    (by simp) rfl

/-- C1 counterexample: the claim says a token of another class, e.g. a
ResetToken, is rejected by the verify-email operation. But `verifyEmailUser`
verifies with `JWT_RESET_SECRET` — the reset class secret — so an unexpired
ResetToken issued by forgot-password passes its token check and the request
verifies the email of the account with a 200 response. -/
theorem claim_C1_counterexample :
    (verifyEmailUser
        [{ id := "u1", firstName := "Ana", lastName := "Lopez",
           email := "a@x.com", password := some "hash1",
           emailVerified := false, role := some .guest }]
        "rsec" 100 (forgotSignToken "a@x.com" "rsec" 0)).1.status = 200
      ∧ (verifyEmailUser
          [{ id := "u1", firstName := "Ana", lastName := "Lopez",
             email := "a@x.com", password := some "hash1",
             emailVerified := false, role := some .guest }]
          "rsec" 100 (forgotSignToken "a@x.com" "rsec" 0)).2
        = [{ id := "u1", firstName := "Ana", lastName := "Lopez",
             email := "a@x.com", password := some "hash1",
             emailVerified := true, role := some .guest }] := by
  constructor <;> rfl

/-- C1 amended: the verify-email operation verifies with the reset class
secret, so it rejects every token signed with any other secret — in
particular the VerificationToken issued at registration, whenever the
verification secret differs from the reset secret — with a 500-mapped
invalid-signature error and an unchanged store; a ResetToken (signed with
the reset secret) is not rejected by its token check (see the
counterexample). -/
theorem claim_C1_amended
    (store : List UserRecord) (resetSecret : String) (now : Nat) (tok : Jwt)
    (h : tok.secret ≠ resetSecret) :
    jwtVerify tok resetSecret now = .error .invalidSignature
      ∧ (verifyEmailUser store resetSecret now tok).1.status = 500
      ∧ (verifyEmailUser store resetSecret now tok).2 = store := by
  have hver : jwtVerify tok resetSecret now = .error .invalidSignature := by
    unfold jwtVerify
    simp [h]
  have hmsg : strContains (toLowerCase (jwtErrorMessage .invalidSignature))
      "does not exist" = false := by decide
  refine ⟨hver, ?_, ?_⟩
  · unfold verifyEmailUser
    rw [hver]
    simp [handleError, hmsg]
  · unfold verifyEmailUser
    rw [hver]

/-- C1 witness: the verification token signed at registration with the
verification secret "vsec" is rejected by verify-email, which verifies with
the distinct reset secret "rsec". -/
theorem claim_C1_witness :
    ("vsec" : String) ≠ "rsec"
      ∧ (jwtVerify (registerSignToken "a@x.com" "vsec" 0) "rsec" 0
            = .error .invalidSignature
          ∧ (verifyEmailUser [] "rsec" 0 (registerSignToken "a@x.com" "vsec" 0)).1.status = 500
          ∧ (verifyEmailUser [] "rsec" 0 (registerSignToken "a@x.com" "vsec" 0)).2 = []) :=
  ⟨by decide, claim_C1_amended [] "rsec" 0 (registerSignToken "a@x.com" "vsec" 0) (by decide)⟩

namespace UserRepositoryImpl

/-- `UserRepositoryImpl.getById` (part_016): fetch the user document by id and
throw `User "<id>" does not exist` when it is absent. The `none` branch models
the Firestore client throwing on an undefined document id (the middleware
passes `decoded.id`, which a token may simply not carry). -/
def getById (store : List UserRecord) (id : Option String) :
    Except String UserRecord :=
  match id with
  | none => .error "Failed to retrieve user data after get"
  | some i =>
    match store.find? (fun u => decide (u.id = i)) with
    | none => .error ("User \"" ++ i ++ "\" does not exist")
    | some u => .ok u

end UserRepositoryImpl

/-- Outcome of an Express middleware: either a terminal response or a call to
`next()` passing control on. -/
inductive MwResult where
  | response (res : HttpResponse)
  | next
deriving DecidableEq

/-- Embedding of `checkRoleMiddleware` (core/middlewares/role): 401 when no
bearer token; inside the try block, verify the token with `JWT_SECRET`, read
`decoded.id`, re-resolve the user by id from the store, 403 when the record
has no role, allow unconditionally for `admin`, allow when the role is in the
allow-list and 403 otherwise; any error thrown inside the try — both token
verification failures and the user-lookup throw — is caught and answered 401
"Invalid or expired token". -/
def checkRoleMiddleware (allowedRoles : List Role) (secret : String)
    (now : Nat) (store : List UserRecord) (tok : Option Jwt) : MwResult :=
  match tok with
  | none => .response { status := 401, message := some "No token provided", token := none }
  | some t =>
    match jwtVerify t secret now with
    | .error _ =>
      .response { status := 401, message := some "Invalid or expired token", token := none }
    | .ok pl =>
      match UserRepositoryImpl.getById store pl.id with
      | .error _ =>
        .response { status := 401, message := some "Invalid or expired token", token := none }
      | .ok u =>
        match u.role with
        | none => .response { status := 403, message := some "User role not found", token := none }
        | some r =>
          if r = .admin then .next
          else if allowedRoles.contains r then .next
          else .response { status := 403,
                           message := some "Access denied: insufficient permissions",
                           token := none }

/-- Embedding of the `loginUser` controller (already-validated input): run the
login use case; on success sign a 1-day token over the email with `JWT_SECRET`
and return it in the 200 response body; on failure answer via `handleError`. -/
def loginUser (bcompare : String → String → Bool) (store : List UserRecord)
    (jwtSecret : String) (now : Nat) (email password : String) : HttpResponse :=
  match AuthRepositoryImpl.login bcompare store email password with
  | .error m => handleError (.jsError m)
  | .ok _ =>
    { status := 200, message := none,
      token := some (loginSignToken email jwtSecret now) }

/-- C6: role check — when the token verifies, carries an id resolving to a
stored record, and that record has a role: an `admin` is allowed regardless of
the allow-list; any other role is allowed exactly when it is in the
allow-list, and otherwise the request is rejected with the 403 Forbidden
response. -/
theorem claim_C6_role_check
    (allowed : List Role) (secret : String) (now : Nat)
    (store : List UserRecord) (tok : Jwt) (pl : JwtPayload)
    (uid : String) (u : UserRecord) (r : Role)
    (hver : jwtVerify tok secret now = .ok pl)
    (hid : pl.id = some uid)
    (hfind : store.find? (fun v => decide (v.id = uid)) = some u)
    (hrole : u.role = some r) :
    (r = .admin → checkRoleMiddleware allowed secret now store (some tok) = .next)
      ∧ (r ≠ .admin →
          (checkRoleMiddleware allowed secret now store (some tok) = .next ↔ r ∈ allowed))
      ∧ (r ≠ .admin → r ∉ allowed →
          checkRoleMiddleware allowed secret now store (some tok)
            = .response { status := 403,
                          message := some "Access denied: insufficient permissions",
                          token := none }) := by
  have hget : UserRepositoryImpl.getById store pl.id = .ok u := by
    unfold UserRepositoryImpl.getById
    simp only [hid, hfind]
  have hmw : checkRoleMiddleware allowed secret now store (some tok)
      = (if r = .admin then .next
         else if allowed.contains r then .next
         else .response { status := 403,
                          message := some "Access denied: insufficient permissions",
                          token := none }) := by
    unfold checkRoleMiddleware
    simp only [hver, hget, hrole]
  refine ⟨?_, ?_, ?_⟩
  · intro h
    rw [hmw]
    simp [h]
  · intro h
    rw [hmw]
    by_cases hc : r ∈ allowed
    · simp [h, hc]
    · simp [h, hc]
  · intro h hc
    rw [hmw]
    simp [h, hc]

/-- C6 witness: a guest whose role is in the allow-list passes the role check
for a route allowing guests. -/
theorem claim_C6_witness :
    checkRoleMiddleware [Role.guest] "sec" 0
        [{ id := "u1", firstName := "Ana", lastName := "Lopez",
           email := "a@x.com", password := some "hash1",
           emailVerified := true, role := some .guest }]
        (some { payload := { id := some "u1", role := none, email := some "a@x.com",
                             iat := 0, exp := some 86400 },
                secret := "sec" })
      = .next :=
  ((claim_C6_role_check [Role.guest] "sec" 0
      [{ id := "u1", firstName := "Ana", lastName := "Lopez",
         email := "a@x.com", password := some "hash1",
         emailVerified := true, role := some .guest }]
      { payload := { id := some "u1", role := none, email := some "a@x.com",
                     iat := 0, exp := some 86400 },
        secret := "sec" }
      { id := some "u1", role := none, email := some "a@x.com",
        iat := 0, exp := some 86400 }
      "u1"
      { id := "u1", firstName := "Ana", lastName := "Lopez",
        email := "a@x.com", password := some "hash1",
        emailVerified := true, role := some .guest }
      .guest (by rfl) rfl (by rfl) rfl).2.1 (by decide)).mpr (by decide)

/-- C10: when the middleware receives a syntactically valid, unexpired access
token whose embedded id resolves to no stored record, the error thrown by the
user lookup is caught by the catch-all and the request is answered 401
"Invalid or expired token" — not 403 and not 404. -/
theorem claim_C10_unknown_id_gets_401
    (allowed : List Role) (secret : String) (now : Nat)
    (store : List UserRecord) (tok : Jwt) (pl : JwtPayload) (uid : String)
    (hver : jwtVerify tok secret now = .ok pl)
    (hid : pl.id = some uid)
    (hfind : store.find? (fun v => decide (v.id = uid)) = none) :
    checkRoleMiddleware allowed secret now store (some tok)
      = .response { status := 401, message := some "Invalid or expired token",
                    token := none } := by
  have hget : UserRepositoryImpl.getById store pl.id
      = .error ("User \"" ++ uid ++ "\" does not exist") := by
    unfold UserRepositoryImpl.getById
    simp only [hid, hfind]
  unfold checkRoleMiddleware
  simp only [hver, hget]

/-- C10 witness: a valid token naming an id absent from the store is answered
401 with the invalid-or-expired message. -/
theorem claim_C10_witness :
    checkRoleMiddleware [Role.guest] "sec" 0
        [{ id := "u1", firstName := "Ana", lastName := "Lopez",
           email := "a@x.com", password := some "hash1",
           emailVerified := true, role := some .guest }]
        (some { payload := { id := some "ghost", role := none, email := none,
                             iat := 0, exp := some 86400 },
                secret := "sec" })
      = .response { status := 401, message := some "Invalid or expired token",
                    token := none } :=
  claim_C10_unknown_id_gets_401 [Role.guest] "sec" 0
    [{ id := "u1", firstName := "Ana", lastName := "Lopez",
       email := "a@x.com", password := some "hash1",
       emailVerified := true, role := some .guest }]
    { payload := { id := some "ghost", role := none, email := none,
                   iat := 0, exp := some 86400 },
      secret := "sec" }
    { id := some "ghost", role := none, email := none,
      iat := 0, exp := some 86400 }
    "ghost" (by rfl) rfl (by rfl)

/-- C2: the claim says every successful login returns an AccessToken whose
payload embeds the id, role and email of the user, so that every field the role
check reads is present. On the code, a successful login for a concrete
verified account returns the token signed over the email alone: its payload
has no `id` and no `role`, and the role-check middleware — which reads
`decoded.id` — answers 401 to the very token login just issued. -/
theorem claim_C2_login_token_missing_fields :
    loginUser (fun _ _ => true)
        [{ id := "u1", firstName := "Ana", lastName := "Lopez",
           email := "a@x.com", password := some "hash1",
           emailVerified := true, role := some .guest }]
        "sec" 0 "a@x.com" "Pw123456"
      = { status := 200, message := none,
          token := some (loginSignToken "a@x.com" "sec" 0) }
    ∧ (loginSignToken "a@x.com" "sec" 0).payload.id = none
    ∧ (loginSignToken "a@x.com" "sec" 0).payload.role = none
    ∧ (loginSignToken "a@x.com" "sec" 0).payload.email = some "a@x.com"
    ∧ checkRoleMiddleware [Role.guest] "sec" 0
        [{ id := "u1", firstName := "Ana", lastName := "Lopez",
           email := "a@x.com", password := some "hash1",
           emailVerified := true, role := some .guest }]
        (some (loginSignToken "a@x.com" "sec" 0))
      = .response { status := 401, message := some "Invalid or expired token",
                    token := none } := by
  refine ⟨?_, rfl, rfl, rfl, ?_⟩ <;> rfl
